import Mathlib

/-!
# Verification of the TSA Item Checker backend (`src/main.py`)

A shallow embedding of the single-file FastAPI service in `src/main.py`.
The service exposes `POST /check-item`: it validates the request body,
delegates to `OpenRouterService.check_tsa_item`, which performs one
outbound HTTP call to a chat-completion API, extracts a candidate JSON
object from the model's free-text reply (first `\x7b` to last `\x7d`),
parses it best-effort, and builds a `TSACheckResult`, mapping every
failure to an HTTP error status.

Modelling conventions:
* Python strings are Lean `String`s; `str.strip`, `str.find`, `str.rfind`
  and slicing are re-implemented below on the ASCII whitespace set.
* `json.loads` is an oracle parameter `json_loads : String → Option (List (String × JValue))`:
  `some fields` models a successful parse to a dict (the candidate always
  starts with `\x7b`, so a successful `json.loads` always yields a dict),
  `none` models `json.JSONDecodeError`.  All theorems are universally
  quantified over the oracle, the concrete witnesses instantiate it.
* pydantic field validation of `TSACheckResult` is modelled strictly
  (a bool field accepts exactly a JSON boolean, a str field exactly a
  JSON string); pydantic additionally coerces some values
  (version-dependent), but no theorem below depends on an input in that
  coercion zone, and a JSON `null` for a required field is rejected by
  every pydantic version, which is what the proofs use.
* The upstream call's outcome is a value of `UpstreamOutcome`: a raised
  `httpx` exception, or a delivered HTTP response with status code, raw
  body text, and the extracted `choices[0].message.content` reply text.
-/

/-- A JSON value, the codomain of the modelled `json.loads`
(Python `None`/`bool`/numbers/`str`/`list`/`dict`). -/
inductive JValue where
  | jnull
  | jbool (b : Bool)
  | jnum (n : Int)
  | jstr (s : String)
  | jarr (elems : List JValue)
  | jobj (fields : List (String × JValue))

/-- Python whitespace characters stripped by `str.strip()` (ASCII subset:
space, tab, newline, carriage return, vertical tab, form feed). -/
def pyWhitespace (c : Char) : Bool :=
  c = ' ' || c = '\t' || c = '\n' || c = '\r' || c = '\x0b' || c = '\x0c'

/-- Python `str.strip()`: remove leading and trailing whitespace. -/
def pyStrip (s : String) : String :=
  String.mk (((s.toList.dropWhile pyWhitespace).reverse.dropWhile pyWhitespace).reverse)

/-- Index of the first occurrence of `c` in a character list, if any. -/
def findIdxCh (c : Char) : List Char → Option Nat
  | [] => none
  | x :: xs => if x = c then some 0 else (findIdxCh c xs).map (· + 1)

/-- Index of the last occurrence of `c` in a character list, if any. -/
def rfindIdxCh (c : Char) : List Char → Option Nat
  | [] => none
  | x :: xs =>
    match rfindIdxCh c xs with
    | some j => some (j + 1)
    | none => if x = c then some 0 else none

/-- Python `str.find(c)`: index of first occurrence, `-1` if absent. -/
def pyFind (s : String) (c : Char) : Int :=
  match findIdxCh c s.toList with
  | some n => (n : Int)
  | none => -1

/-- Python `str.rfind(c)`: index of last occurrence, `-1` if absent. -/
def pyRFind (s : String) (c : Char) : Int :=
  match rfindIdxCh c s.toList with
  | some n => (n : Int)
  | none => -1

/-- Python slice `s[a:b]` for `0 ≤ a ≤ b`. -/
def pySlice (s : String) (a b : Nat) : String :=
  String.mk ((s.toList.drop a).take (b - a))

/-- Lines 112-116 of `main.py`: `json_start = llm_response.find('\x7b')`,
`json_end = llm_response.rfind('\x7d') + 1`; the candidate JSON substring
`llm_response[json_start:json_end]` is taken when
`json_start >= 0 and json_end > json_start`. -/
def extractCandidate (llm_response : String) : Option String :=
  if 0 ≤ pyFind llm_response '\x7b' ∧
      pyRFind llm_response '\x7d' + 1 > pyFind llm_response '\x7b' then
    some (pySlice llm_response (pyFind llm_response '\x7b').toNat
      (pyRFind llm_response '\x7d' + 1).toNat)
  else
    none

/-- The response model `TSACheckResult` (lines 38-44 of `main.py`),
after successful pydantic validation. -/
structure TSACheckResult where
  item : String
  carry_on_allowed : Bool
  checked_baggage_allowed : Bool
  description : String
  restrictions : Option String
  additional_notes : Option String
deriving DecidableEq

/-- The request model `ItemCheckRequest` (lines 34-36 of `main.py`). -/
structure ItemCheckRequest where
  item : String
  description : Option String

/-- A raw `POST /check-item` request body before FastAPI/pydantic
validation: each field either present (with a string value) or absent. -/
structure RawBody where
  item : Option String
  description : Option String

/-- A FastAPI `HTTPException`: status code and `detail` message. -/
structure HTTPErr where
  status_code : Nat
  detail : String
deriving DecidableEq

/-- `str(e)` for a starlette/FastAPI `HTTPException`:
`f"\x7bstatus_code\x7d: \x7bdetail\x7d"`. -/
def httpExceptionStr (e : HTTPErr) : String :=
  toString e.status_code ++ ": " ++ e.detail

/-- Python `dict` lookup for a dict built from a key/value list
(`json.loads` keeps the last occurrence of a duplicated key):
`some v` when the key is present with value `v`, `none` when absent. -/
def objGet (fields : List (String × JValue)) (k : String) : Option JValue :=
  fields.foldl (fun acc kv => if kv.1 = k then some kv.2 else acc) none

/-- Python `dict.get(k, default)`: the default applies only when the key
is absent; a key present with value `None` yields `None`. -/
def dictGetD (fields : List (String × JValue)) (k : String) (dflt : JValue) : JValue :=
  (objGet fields k).getD dflt

/-- Line 140: `parsed_result.get("carry_on_allowed", False)`. -/
def carryOnArg (fields : List (String × JValue)) : JValue :=
  dictGetD fields "carry_on_allowed" (.jbool false)

/-- Line 141: `parsed_result.get("checked_baggage_allowed", False)`. -/
def checkedArg (fields : List (String × JValue)) : JValue :=
  dictGetD fields "checked_baggage_allowed" (.jbool false)

/-- Line 142: `parsed_result.get("description", "No description available")`. -/
def descriptionArg (fields : List (String × JValue)) : JValue :=
  dictGetD fields "description" (.jstr "No description available")

/-- Line 143: `parsed_result.get("restrictions")` — absent gives Python
`None`, i.e. the default is `jnull`. -/
def restrictionsArg (fields : List (String × JValue)) : JValue :=
  dictGetD fields "restrictions" .jnull

/-- Line 144: `parsed_result.get("additional_notes")`. -/
def notesArg (fields : List (String × JValue)) : JValue :=
  dictGetD fields "additional_notes" .jnull

/-- pydantic validation of a `bool` field (strict zone: exactly a JSON
boolean; in particular `null` is rejected by every pydantic version). -/
def validateBoolField (name : String) : JValue → Except String Bool
  | .jbool b => .ok b
  | _ => .error (name ++ ": Input should be a valid boolean")

/-- pydantic validation of a required `str` field (strict zone: exactly a
JSON string; in particular `null` is rejected by every pydantic version). -/
def validateStrField (name : String) : JValue → Except String String
  | .jstr s => .ok s
  | _ => .error (name ++ ": Input should be a valid string")

/-- pydantic validation of an `Optional[str]` field: `null` and absence
both give `none`, a string gives `some`. -/
def validateOptStrField (name : String) : JValue → Except String (Option String)
  | .jnull => .ok none
  | .jstr s => .ok (some s)
  | _ => .error (name ++ ": Input should be a valid string")

/-- `TSACheckResult(item=item, carry_on_allowed=..., ...)` (lines 138-145):
pydantic validates each keyword argument against the field types declared
at lines 38-44 and raises `ValidationError` on a mismatch.  `item` is
passed through as the Python string `item`, never taken from the parsed
reply. -/
def TSACheckResult.validate (item : String) (c ch d r n : JValue) :
    Except String TSACheckResult :=
  match validateBoolField "carry_on_allowed" c,
        validateBoolField "checked_baggage_allowed" ch,
        validateStrField "description" d,
        validateOptStrField "restrictions" r,
        validateOptStrField "additional_notes" n with
  | .ok cb, .ok chb, .ok ds, .ok rs, .ok ns => .ok ⟨item, cb, chb, ds, rs, ns⟩
  | .error m, _, _, _, _ => .error m
  | _, .error m, _, _, _ => .error m
  | _, _, .error m, _, _ => .error m
  | _, _, _, .error m, _ => .error m
  | _, _, _, _, .error m => .error m

/-- The synthetic `parsed_result` dict of lines 120-126, used when no
`\x7b`/`\x7d` pair is found in the reply. -/
def noJsonFallback (llm_response : String) : List (String × JValue) :=
  [("carry_on_allowed", .jbool false),
   ("checked_baggage_allowed", .jbool false),
   ("description", .jstr llm_response),
   ("restrictions", .jnull),
   ("additional_notes", .jstr "Unable to parse structured response from AI")]

/-- The synthetic `parsed_result` dict of lines 130-136, used when the
candidate substring raises `json.JSONDecodeError`. -/
def parseFailFallback (llm_response : String) : List (String × JValue) :=
  [("carry_on_allowed", .jbool false),
   ("checked_baggage_allowed", .jbool false),
   ("description", .jstr llm_response),
   ("restrictions", .jnull),
   ("additional_notes", .jstr "Response format error - please verify information with official TSA guidelines")]

/-- Lines 110-136: compute `parsed_result` from the reply text — the
parsed candidate object if extraction and `json.loads` succeed, otherwise
the matching synthetic fallback dict. -/
def parsedResult (json_loads : String → Option (List (String × JValue)))
    (llm_response : String) : List (String × JValue) :=
  match extractCandidate llm_response with
  | none => noJsonFallback llm_response
  | some json_str =>
    match json_loads json_str with
    | some obj => obj
    | none => parseFailFallback llm_response

/-- Lines 138-145: build the `TSACheckResult` from `parsed_result` via
`dict.get` with per-key defaults, validated by pydantic. -/
def buildResult (item : String) (fields : List (String × JValue)) :
    Except String TSACheckResult :=
  TSACheckResult.validate item (carryOnArg fields) (checkedArg fields)
    (descriptionArg fields) (restrictionsArg fields) (notesArg fields)

/-- The whole reply-processing stage of `check_tsa_item` on a 200 response
(lines 106-145), including the catch-all of lines 151-152 wrapping a
pydantic `ValidationError` as `HTTPException(500, "Unexpected error: ...")`. -/
def processReply (json_loads : String → Option (List (String × JValue)))
    (item llm_response : String) : Except HTTPErr TSACheckResult :=
  match buildResult item (parsedResult json_loads llm_response) with
  | .ok r => .ok r
  | .error msg => .error ⟨500, "Unexpected error: " ++ msg⟩

/-- An exception raised by the `httpx` client during the outbound call.
`timeoutExc` models `httpx.TimeoutException`, `connectError` models any
other `httpx.RequestError` (DNS failure, connection refused, reset, ...). -/
inductive HttpxFailure where
  | timeoutExc (msg : String)
  | connectError (msg : String)

/-- `isinstance(e, httpx.TimeoutException)`. -/
def HttpxFailure.isTimeoutException : HttpxFailure → Bool
  | .timeoutExc _ => true
  | .connectError _ => false

/-- `isinstance(e, httpx.RequestError)`: `httpx.TimeoutException` is a
subclass of `httpx.RequestError`, so this holds for both constructors. -/
def HttpxFailure.isRequestError : HttpxFailure → Bool
  | _ => true

/-- `str(e)` of the raised httpx exception. -/
def HttpxFailure.message : HttpxFailure → String
  | .timeoutExc m => m
  | .connectError m => m

/-- The `except` clauses of lines 147-152, tried in source order exactly
as Python does: `httpx.TimeoutException` first, then `httpx.RequestError`,
then bare `Exception`. -/
def dispatchFailure (e : HttpxFailure) : HTTPErr :=
  if e.isTimeoutException then ⟨504, "Request to LLM service timed out"⟩
  else if e.isRequestError then ⟨500, "Network error: " ++ e.message⟩
  else ⟨500, "Unexpected error: " ++ e.message⟩

/-- Outcome of the outbound `client.post` call: a raised httpx exception,
or a delivered HTTP response with its status code, raw body `text`, and
the reply text extracted from `choices[0].message.content` (the claims
about delivered responses premise that this envelope field is present). -/
inductive UpstreamOutcome where
  | failure (e : HttpxFailure)
  | response (status_code : Nat) (text : String) (content : String)

/-- `OpenRouterService.check_tsa_item` (lines 54-152).  On a delivered
response with status ≠ 200 the `HTTPException(500, "OpenRouter API error:
...")` raised at lines 101-104 is itself caught by the bare
`except Exception` clause at line 151 (FastAPI's `HTTPException` is an
`Exception`) and re-wrapped with the "Unexpected error: " prefix around
`str(e)`; the status stays 500 and the message keeps the upstream status
and body.  The optional `item_description` only influences the prompt
string, which no observable behaviour modelled here depends on. -/
def check_tsa_item (json_loads : String → Option (List (String × JValue)))
    (item : String) (outcome : UpstreamOutcome) : Except HTTPErr TSACheckResult :=
  match outcome with
  | .failure e => .error (dispatchFailure e)
  | .response status text llm_response =>
    if status ≠ 200 then
      .error ⟨500, "Unexpected error: " ++
        httpExceptionStr ⟨500, "OpenRouter API error: " ++ toString status ++ " - " ++ text⟩⟩
    else
      processReply json_loads item llm_response

/-- The `check_item` handler body (lines 179-208): reject an item that is
empty or whitespace-only with HTTP 400, otherwise delegate to
`check_tsa_item` with the stripped item; `except HTTPException: raise`
passes every `HTTPException` through unchanged. -/
def check_item (json_loads : String → Option (List (String × JValue)))
    (request : ItemCheckRequest) (outcome : UpstreamOutcome) :
    Except HTTPErr TSACheckResult :=
  if request.item = "" ∨ pyStrip request.item = "" then
    .error ⟨400, "Item name is required"⟩
  else
    check_tsa_item json_loads (pyStrip request.item) outcome

/-- An exception escaping the `try` block of `check_item` (lines 194-199):
either a FastAPI `HTTPException` or any other exception with its message. -/
inductive PyExc where
  | httpExc (e : HTTPErr)
  | otherExc (msg : String)

/-- The two `except` clauses of `check_item` (lines 201-208):
`HTTPException` is re-raised as-is; anything else is wrapped as
`HTTPException(500, f"Failed to check item: \x7bstr(e)\x7d")`. -/
def check_item_handler : PyExc → HTTPErr
  | .httpExc e => e
  | .otherExc msg => ⟨500, "Failed to check item: " ++ msg⟩

/-- FastAPI/pydantic validation of the request body against
`ItemCheckRequest` (lines 34-36): `item: str` is a required field, so a
body without it raises `RequestValidationError`, which FastAPI answers
with HTTP 422 Unprocessable Entity before the handler runs. -/
def validateBody (b : RawBody) : Except HTTPErr ItemCheckRequest :=
  match b.item with
  | none => .error ⟨422, "Field required: item"⟩
  | some s => .ok ⟨s, b.description⟩

/-- The full `POST /check-item` route: framework body validation, then the
`check_item` handler. -/
def postCheckItem (json_loads : String → Option (List (String × JValue)))
    (b : RawBody) (outcome : UpstreamOutcome) : Except HTTPErr TSACheckResult :=
  match validateBody b with
  | .error e => .error e
  | .ok request => check_item json_loads request outcome

/-- The HTTP status of an error outcome, `none` on success. -/
def errStatus : Except HTTPErr TSACheckResult → Option Nat
  | .error e => some e.status_code
  | .ok _ => none

/-- `true` exactly on a successful (HTTP 200) outcome. -/
def isOkResult : Except HTTPErr TSACheckResult → Bool
  | .ok _ => true
  | .error _ => false

/-- A field value acceptable to a pydantic `bool` field without coercion:
absent or a JSON boolean. -/
def boolFieldOk : Option JValue → Bool
  | none => true
  | some (.jbool _) => true
  | _ => false

/-- A field value acceptable to the required `str` field `description`
without coercion: absent (the default string applies) or a JSON string. -/
def reqStrFieldOk : Option JValue → Bool
  | none => true
  | some (.jstr _) => true
  | _ => false

/-- A field value acceptable to an `Optional[str]` field: absent, `null`,
or a JSON string. -/
def optStrFieldOk : Option JValue → Bool
  | none => true
  | some .jnull => true
  | some (.jstr _) => true
  | _ => false

/-- The parsed object's values are type-correct for the `TSACheckResult`
fields they are mapped to (the zone where every pydantic version accepts
the value unchanged). -/
def wellTypedFields (fields : List (String × JValue)) : Bool :=
  boolFieldOk (objGet fields "carry_on_allowed") &&
  boolFieldOk (objGet fields "checked_baggage_allowed") &&
  reqStrFieldOk (objGet fields "description") &&
  optStrFieldOk (objGet fields "restrictions") &&
  optStrFieldOk (objGet fields "additional_notes")

/-- HTTP success status class (2xx), the spec's notion of "success
status". -/
def isSuccessStatus (s : Nat) : Bool :=
  200 ≤ s && s < 300

/-! ## Helper lemmas -/

theorem str_append_ne_empty (a b : String) (ha : a ≠ "") : a ++ b ≠ "" := by
  intro h
  apply ha
  rw [String.ext_iff] at h ⊢
  have he : ("" : String).data = [] := rfl
  rw [String.data_append, he] at h
  rw [he]
  exact (List.append_eq_nil.mp h).1

theorem validate_ok_item (item : String) (c ch d r n : JValue) (res : TSACheckResult)
    (h : TSACheckResult.validate item c ch d r n = .ok res) : res.item = item := by
  unfold TSACheckResult.validate at h
  split at h <;> first
  | (injection h with h2; subst h2; rfl)
  | simp at h

theorem processReply_ok_item (json_loads : String → Option (List (String × JValue)))
    (item llm_response : String) (r : TSACheckResult)
    (h : processReply json_loads item llm_response = .ok r) : r.item = item := by
  unfold processReply at h
  split at h
  · rename_i r' heq
    cases h
    exact validate_ok_item _ _ _ _ _ _ _ heq
  · simp at h

theorem check_tsa_item_ok_item (json_loads : String → Option (List (String × JValue)))
    (item : String) (outcome : UpstreamOutcome) (r : TSACheckResult)
    (h : check_tsa_item json_loads item outcome = .ok r) : r.item = item := by
  cases outcome with
  | failure e => simp [check_tsa_item] at h
  | response status text content =>
    by_cases hs : status = 200
    · subst hs
      simp only [check_tsa_item, ne_eq, not_true_eq_false, if_neg, ite_false,
        not_false_eq_true] at h
      exact processReply_ok_item _ _ _ _ h
    · simp [check_tsa_item, hs] at h

theorem validateBool_getD_ok (name : String) (o : Option JValue)
    (h : boolFieldOk o = true) :
    ∃ b, validateBoolField name (o.getD (.jbool false)) = .ok b := by
  rcases o with _ | (_ | b | m | s | a | f) <;>
    simp_all [boolFieldOk, validateBoolField]

theorem validateStr_getD_ok (name dflt : String) (o : Option JValue)
    (h : reqStrFieldOk o = true) :
    ∃ s, validateStrField name (o.getD (.jstr dflt)) = .ok s := by
  rcases o with _ | (_ | b | m | s | a | f) <;>
    simp_all [reqStrFieldOk, validateStrField]

theorem validateOptStr_getD_ok (name : String) (o : Option JValue)
    (h : optStrFieldOk o = true) :
    ∃ s, validateOptStrField name (o.getD .jnull) = .ok s := by
  rcases o with _ | (_ | b | m | s | a | f) <;>
    simp_all [optStrFieldOk, validateOptStrField]

theorem buildResult_ok_of_wellTyped (item : String) (fields : List (String × JValue))
    (h : wellTypedFields fields = true) :
    ∃ r, buildResult item fields = .ok r ∧ r.item = item := by
  unfold wellTypedFields at h
  simp only [Bool.and_eq_true] at h
  obtain ⟨⟨⟨⟨h1, h2⟩, h3⟩, h4⟩, h5⟩ := h
  obtain ⟨b1, hb1⟩ := validateBool_getD_ok "carry_on_allowed" _ h1
  obtain ⟨b2, hb2⟩ := validateBool_getD_ok "checked_baggage_allowed" _ h2
  obtain ⟨d3, hb3⟩ := validateStr_getD_ok "description" "No description available" _ h3
  obtain ⟨r4, hb4⟩ := validateOptStr_getD_ok "restrictions" _ h4
  obtain ⟨n5, hb5⟩ := validateOptStr_getD_ok "additional_notes" _ h5
  refine ⟨⟨item, b1, b2, d3, r4, n5⟩, ?_, rfl⟩
  unfold buildResult TSACheckResult.validate carryOnArg checkedArg descriptionArg
    restrictionsArg notesArg dictGetD
  rw [hb1, hb2, hb3, hb4, hb5]

theorem buildResult_noJsonFallback (item llm_response : String) :
    buildResult item (noJsonFallback llm_response) =
      .ok ⟨item, false, false, llm_response, none,
        some "Unable to parse structured response from AI"⟩ := by
  simp [buildResult, noJsonFallback, TSACheckResult.validate, carryOnArg, checkedArg,
        descriptionArg, restrictionsArg, notesArg, dictGetD, objGet,
        validateBoolField, validateStrField, validateOptStrField]

theorem buildResult_parseFailFallback (item llm_response : String) :
    buildResult item (parseFailFallback llm_response) =
      .ok ⟨item, false, false, llm_response, none,
        some "Response format error - please verify information with official TSA guidelines"⟩ := by
  simp [buildResult, parseFailFallback, TSACheckResult.validate, carryOnArg, checkedArg,
        descriptionArg, restrictionsArg, notesArg, dictGetD, objGet,
        validateBoolField, validateStrField, validateOptStrField]

theorem findIdxCh_get (c : Char) (l : List Char) (n : Nat)
    (h : findIdxCh c l = some n) : l[n]? = some c := by
  induction l generalizing n with
  | nil => simp [findIdxCh] at h
  | cons x xs ih =>
    unfold findIdxCh at h
    by_cases hx : x = c
    · rw [if_pos hx] at h
      injection h with h
      subst h
      simp [hx]
    · rw [if_neg hx] at h
      rcases Option.map_eq_some'.mp h with ⟨m, hm, hmn⟩
      subst hmn
      simpa using ih m hm

theorem rfindIdxCh_get (c : Char) (l : List Char) (n : Nat)
    (h : rfindIdxCh c l = some n) : l[n]? = some c := by
  induction l generalizing n with
  | nil => simp [rfindIdxCh] at h
  | cons x xs ih =>
    unfold rfindIdxCh at h
    cases hr : rfindIdxCh c xs with
    | some j =>
      rw [hr] at h
      injection h with h
      subst h
      simpa using ih j hr
    | none =>
      rw [hr] at h
      by_cases hx : x = c
      · rw [if_pos hx] at h
        injection h with h
        subst h
        simp [hx]
      · rw [if_neg hx] at h
        exact absurd h (by simp)

theorem pyFind_nonneg_get (s : String) (c : Char) (h : 0 ≤ pyFind s c) :
    s.toList[(pyFind s c).toNat]? = some c := by
  revert h
  unfold pyFind
  cases hf : findIdxCh c s.toList with
  | none =>
    intro h
    simp at h
  | some n =>
    intro h
    simpa using findIdxCh_get c _ n hf

theorem pyRFind_nonneg_get (s : String) (c : Char) (h : 0 ≤ pyRFind s c) :
    s.toList[(pyRFind s c).toNat]? = some c := by
  revert h
  unfold pyRFind
  cases hf : rfindIdxCh c s.toList with
  | none =>
    intro h
    simp at h
  | some n =>
    intro h
    simpa using rfindIdxCh_get c _ n hf

theorem extractCandidate_isSome_iff (llm_response : String) :
    (extractCandidate llm_response).isSome = true ↔
      0 ≤ pyFind llm_response '\x7b' ∧
        pyFind llm_response '\x7b' < pyRFind llm_response '\x7d' := by
  unfold extractCandidate
  constructor
  · intro h
    split at h
    · rename_i hc
      obtain ⟨h1, h2⟩ := hc
      refine ⟨h1, ?_⟩
      by_contra hnot
      push_neg at hnot
      have heq : pyFind llm_response '\x7b' = pyRFind llm_response '\x7d' := by omega
      have hrf : 0 ≤ pyRFind llm_response '\x7d' := by omega
      have g1 := pyFind_nonneg_get llm_response '\x7b' h1
      have g2 := pyRFind_nonneg_get llm_response '\x7d' hrf
      rw [heq] at g1
      rw [g1] at g2
      exact absurd (Option.some.inj g2) (by decide)
    · simp at h
  · intro ⟨h1, h2⟩
    rw [if_pos ⟨h1, by omega⟩]
    rfl

theorem objGet_append_single (fields : List (String × JValue)) (k' : String)
    (v : JValue) (k : String) :
    objGet (fields ++ [(k', v)]) k = if k' = k then some v else objGet fields k := by
  unfold objGet
  rw [List.foldl_append]
  simp

theorem check_tsa_item_200 (json_loads : String → Option (List (String × JValue)))
    (item text llm_response : String) :
    check_tsa_item json_loads item (.response 200 text llm_response) =
      processReply json_loads item llm_response := by
  simp [check_tsa_item]

theorem parsedResult_noJson (json_loads : String → Option (List (String × JValue)))
    (llm_response : String) (h : extractCandidate llm_response = none) :
    parsedResult json_loads llm_response = noJsonFallback llm_response := by
  simp [parsedResult, h]

theorem parsedResult_parseFail (json_loads : String → Option (List (String × JValue)))
    (llm_response cand : String) (hc : extractCandidate llm_response = some cand)
    (hp : json_loads cand = none) :
    parsedResult json_loads llm_response = parseFailFallback llm_response := by
  simp [parsedResult, hc, hp]

theorem parsedResult_parsed (json_loads : String → Option (List (String × JValue)))
    (llm_response cand : String) (fields : List (String × JValue))
    (hc : extractCandidate llm_response = some cand)
    (hp : json_loads cand = some fields) :
    parsedResult json_loads llm_response = fields := by
  simp [parsedResult, hc, hp]

theorem processReply_noJson (json_loads : String → Option (List (String × JValue)))
    (item llm_response : String) (h : extractCandidate llm_response = none) :
    processReply json_loads item llm_response =
      .ok ⟨item, false, false, llm_response, none,
        some "Unable to parse structured response from AI"⟩ := by
  unfold processReply
  rw [parsedResult_noJson _ _ h, buildResult_noJsonFallback]

theorem processReply_parseFail (json_loads : String → Option (List (String × JValue)))
    (item llm_response cand : String) (hc : extractCandidate llm_response = some cand)
    (hp : json_loads cand = none) :
    processReply json_loads item llm_response =
      .ok ⟨item, false, false, llm_response, none,
        some "Response format error - please verify information with official TSA guidelines"⟩ := by
  unfold processReply
  rw [parsedResult_parseFail _ _ _ hc hp, buildResult_parseFailFallback]

/-! ## Claim theorems -/

/-- C1: for every successful `POST /check-item` call (item non-empty after
trimming), the `item` field of the returned `CheckResult` equals the trimmed
`item` from the request; it is never taken from the model's reply, whatever
item name the parsed reply contains (the reply only influences the other
fields, and the oracle `json_loads` is universally quantified). -/
theorem claim1_result_item_echoes_trimmed_request
    (json_loads : String → Option (List (String × JValue)))
    (request : ItemCheckRequest) (outcome : UpstreamOutcome) (r : TSACheckResult)
    (h : check_item json_loads request outcome = .ok r) :
    r.item = pyStrip request.item := by
  unfold check_item at h
  split at h
  · simp at h
  · exact check_tsa_item_ok_item _ _ _ _ h

/-- A `json.loads` oracle for replies whose candidate substring is not valid
JSON: every parse attempt raises `JSONDecodeError`. -/
def wNoParse : String → Option (List (String × JValue)) := fun _ => none

theorem claim1_witness :
    (⟨"laptop", false, false, "hello", none,
      some "Unable to parse structured response from AI"⟩ : TSACheckResult).item =
      pyStrip "  laptop " :=
  claim1_result_item_echoes_trimmed_request wNoParse ⟨"  laptop ", none⟩
    (.response 200 "" "hello") _ (by rfl)

/-- C3: for every upstream reply with no brace-delimited candidate, or whose
candidate substring fails to parse as JSON, the returned CheckResult has
`carry_on_allowed = false`, `checked_baggage_allowed = false`, `description`
equal to the raw reply text verbatim, `restrictions` absent, and a fixed
non-empty `additional_notes` diagnostic string ("Unable to parse structured
response from AI" resp. "Response format error - please verify information
with official TSA guidelines"); an unparseable reply is never reported as
allowed. -/
theorem claim3_unparseable_reply_failsafe
    (json_loads : String → Option (List (String × JValue)))
    (item text llm_response cand : String) :
    (extractCandidate llm_response = none →
      check_tsa_item json_loads item (.response 200 text llm_response) =
        .ok ⟨item, false, false, llm_response, none,
          some "Unable to parse structured response from AI"⟩)
    ∧ (extractCandidate llm_response = some cand → json_loads cand = none →
      check_tsa_item json_loads item (.response 200 text llm_response) =
        .ok ⟨item, false, false, llm_response, none,
          some "Response format error - please verify information with official TSA guidelines"⟩) := by
  constructor
  · intro h
    rw [check_tsa_item_200, processReply_noJson _ _ _ h]
  · intro hc hp
    rw [check_tsa_item_200, processReply_parseFail _ _ _ _ hc hp]

theorem claim3_witness :
    check_tsa_item wNoParse "knife" (.response 200 "" "no json here") =
        .ok ⟨"knife", false, false, "no json here", none,
          some "Unable to parse structured response from AI"⟩
    ∧ check_tsa_item wNoParse "corkscrew" (.response 200 "" "see \x7bbroken\x7d end") =
        .ok ⟨"corkscrew", false, false, "see \x7bbroken\x7d end", none,
          some "Response format error - please verify information with official TSA guidelines"⟩ :=
  ⟨(claim3_unparseable_reply_failsafe wNoParse "knife" "" "no json here" "x").1 (by rfl),
   (claim3_unparseable_reply_failsafe wNoParse "corkscrew" "" "see \x7bbroken\x7d end"
      "\x7bbroken\x7d").2 (by rfl) (by rfl)⟩

/-- C10: the extraction heuristic yields a candidate JSON substring exactly
when the reply's first `\x7b` occurs strictly before its last `\x7d` (the code's
test `json_start >= 0 and json_end > json_start` is equivalent because the
character at the first-`\x7b` index differs from the character at the
last-`\x7d` index, so the two indices can never be equal); whenever the test
fails — no `\x7b`, no `\x7d`, or the last `\x7d` at or before the first `\x7b` —
the no-JSON synthetic fallback result is returned. -/
theorem claim10_brace_pair_heuristic
    (json_loads : String → Option (List (String × JValue)))
    (item text llm_response : String) :
    ((extractCandidate llm_response).isSome = true ↔
      0 ≤ pyFind llm_response '\x7b' ∧
        pyFind llm_response '\x7b' < pyRFind llm_response '\x7d')
    ∧ (extractCandidate llm_response = none →
        check_tsa_item json_loads item (.response 200 text llm_response) =
          .ok ⟨item, false, false, llm_response, none,
            some "Unable to parse structured response from AI"⟩) := by
  refine ⟨extractCandidate_isSome_iff llm_response, ?_⟩
  intro hnone
  rw [check_tsa_item_200, processReply_noJson _ _ _ hnone]

theorem claim10_witness :
    extractCandidate "\x7d text \x7b" = none
    ∧ check_tsa_item wNoParse "pen" (.response 200 "" "\x7d text \x7b") =
        .ok ⟨"pen", false, false, "\x7d text \x7b", none,
          some "Unable to parse structured response from AI"⟩ :=
  ⟨by rfl, (claim10_brace_pair_heuristic wNoParse "pen" "" "\x7d text \x7b").2 (by rfl)⟩

/-- A `json.loads` oracle matching an upstream reply whose embedded JSON is
the valid object `\x7b"description": null\x7d` (a dict mapping `description`
to Python `None`). -/
def wNullDescription : String → Option (List (String × JValue)) :=
  fun s =>
    if s = "\x7b\"description\": null\x7d" then some [("description", JValue.jnull)]
    else none

/-- C2 counterexample: the item "laptop" is non-empty after trimming and the
upstream reply `\x7b"description": null\x7d` is delivered in a successful
HTTP response and parses as JSON, yet the call fails with HTTP 500 instead
of returning a CheckResult: `description=None` is rejected by the response
model's required `str` field, the `ValidationError` is caught by the bare
`except Exception` (line 151) and surfaces as `HTTPException(500, ...)`. -/
theorem claim2_counterexample_null_description :
    errStatus (check_item wNullDescription ⟨"laptop", none⟩
        (.response 200 "" "\x7b\"description\": null\x7d")) = some 500
    ∧ isOkResult (check_item wNullDescription ⟨"laptop", none⟩
        (.response 200 "" "\x7b\"description\": null\x7d")) = false :=
  ⟨by rfl, by rfl⟩

/-- C2 (amended): for every non-empty, non-whitespace-only item string,
`POST /check-item` returns HTTP 200 with a CheckResult whose `item` equals
the trimmed input for every reply text delivered in a successful upstream
HTTP response — provided that, when the reply's brace-delimited candidate
parses as JSON, the parsed object's values are type-correct for the result
model (booleans for the allowance flags, a string for `description`, string
or null for `restrictions`/`additional_notes`); replies with no parseable
JSON always satisfy this via the synthetic fallback dicts.  Replies whose
embedded JSON holds `null` or other non-coercible values for the required
fields instead fail result-model validation and the call returns HTTP 500
(see the counterexample). -/
theorem claim2_amended_ok_for_welltyped_replies
    (json_loads : String → Option (List (String × JValue)))
    (request : ItemCheckRequest) (text llm_response : String)
    (hitem : pyStrip request.item ≠ "")
    (hwt : wellTypedFields (parsedResult json_loads llm_response) = true) :
    ∃ r, check_item json_loads request (.response 200 text llm_response) = .ok r
      ∧ r.item = pyStrip request.item := by
  obtain ⟨r, hr, hri⟩ := buildResult_ok_of_wellTyped (pyStrip request.item)
    (parsedResult json_loads llm_response) hwt
  refine ⟨r, ?_, hri⟩
  have hne : ¬(request.item = "" ∨ pyStrip request.item = "") := by
    rintro (he | he)
    · exact hitem (by rw [he]; rfl)
    · exact hitem he
  unfold check_item
  rw [if_neg hne, check_tsa_item_200]
  unfold processReply
  rw [hr]

/-- A `json.loads` oracle for the spec's concrete shampoo scenario. -/
def wShampoo : String → Option (List (String × JValue)) :=
  fun s =>
    if s = "\x7b\"carry_on_allowed\": false, \"checked_baggage_allowed\": true, \"description\": \"Liquids over 3.4oz...\"\x7d" then
      some [("carry_on_allowed", JValue.jbool false),
            ("checked_baggage_allowed", JValue.jbool true),
            ("description", JValue.jstr "Liquids over 3.4oz...")]
    else none

theorem claim2_witness :
    ∃ r, check_item wShampoo ⟨"12oz bottle of shampoo", none⟩
        (.response 200 ""
          "Sure! \x7b\"carry_on_allowed\": false, \"checked_baggage_allowed\": true, \"description\": \"Liquids over 3.4oz...\"\x7d") =
        .ok r
      ∧ r.item = pyStrip "12oz bottle of shampoo" :=
  claim2_amended_ok_for_welltyped_replies wShampoo ⟨"12oz bottle of shampoo", none⟩ ""
    "Sure! \x7b\"carry_on_allowed\": false, \"checked_baggage_allowed\": true, \"description\": \"Liquids over 3.4oz...\"\x7d"
    (by decide) (by rfl)

/-- A `json.loads` oracle matching an upstream reply whose embedded JSON is
the valid object `\x7b"carry_on_allowed": null\x7d`. -/
def wNullCarryOn : String → Option (List (String × JValue)) :=
  fun s =>
    if s = "\x7b\"carry_on_allowed\": null\x7d" then
      some [("carry_on_allowed", JValue.jnull)]
    else none

/-- C4 counterexample: the reply `\x7b"carry_on_allowed": null\x7d` parses as
a JSON object, yet no CheckResult with defaulted fields is produced at all —
the key is present (so the `.get` default does not apply), `None` reaches
the required `bool` field, pydantic validation fails, and the call errors
with HTTP 500. -/
theorem claim4_counterexample_null_flag :
    errStatus (check_tsa_item wNullCarryOn "battery"
        (.response 200 "" "\x7b\"carry_on_allowed\": null\x7d")) = some 500 := by
  rfl

/-- C4 (amended): for every upstream reply whose first-`\x7b`-to-last-`\x7d`
substring parses as a JSON object with type-correct values for the expected
keys, the result fields are taken from the object's snake_case keys with
independent defaults for absent keys (`false`, `false`, the fixed
"No description available" string, absent, absent), extra keys are ignored,
and this holds however much prose surrounds the JSON; a present `null` or
other ill-typed value for a required field instead aborts construction with
a validation error (see the counterexample). -/
theorem claim4_amended_fields_from_parsed_object
    (json_loads : String → Option (List (String × JValue)))
    (item text llm_response cand : String) (fields : List (String × JValue))
    (hc : extractCandidate llm_response = some cand)
    (hp : json_loads cand = some fields)
    (hwt : wellTypedFields fields = true) :
    ∃ r, check_tsa_item json_loads item (.response 200 text llm_response) = .ok r
      ∧ (objGet fields "carry_on_allowed" = none → r.carry_on_allowed = false)
      ∧ (∀ b, objGet fields "carry_on_allowed" = some (.jbool b) →
          r.carry_on_allowed = b)
      ∧ (objGet fields "checked_baggage_allowed" = none →
          r.checked_baggage_allowed = false)
      ∧ (∀ b, objGet fields "checked_baggage_allowed" = some (.jbool b) →
          r.checked_baggage_allowed = b)
      ∧ (objGet fields "description" = none →
          r.description = "No description available")
      ∧ (∀ s, objGet fields "description" = some (.jstr s) → r.description = s)
      ∧ (objGet fields "restrictions" = none → r.restrictions = none)
      ∧ (∀ s, objGet fields "restrictions" = some (.jstr s) →
          r.restrictions = some s)
      ∧ (objGet fields "additional_notes" = none → r.additional_notes = none)
      ∧ (∀ s, objGet fields "additional_notes" = some (.jstr s) →
          r.additional_notes = some s)
      ∧ (∀ k v, k ∉ ["carry_on_allowed", "checked_baggage_allowed", "description",
            "restrictions", "additional_notes"] →
          buildResult item (fields ++ [(k, v)]) = buildResult item fields) := by
  have h' := hwt
  unfold wellTypedFields at h'
  simp only [Bool.and_eq_true] at h'
  obtain ⟨⟨⟨⟨h1, h2⟩, h3⟩, h4⟩, h5⟩ := h'
  obtain ⟨b1, hb1⟩ := validateBool_getD_ok "carry_on_allowed" _ h1
  obtain ⟨b2, hb2⟩ := validateBool_getD_ok "checked_baggage_allowed" _ h2
  obtain ⟨d3, hb3⟩ := validateStr_getD_ok "description" "No description available" _ h3
  obtain ⟨r4, hb4⟩ := validateOptStr_getD_ok "restrictions" _ h4
  obtain ⟨n5, hb5⟩ := validateOptStr_getD_ok "additional_notes" _ h5
  refine ⟨⟨item, b1, b2, d3, r4, n5⟩, ?_, ?_, ?_, ?_, ?_, ?_, ?_, ?_, ?_, ?_, ?_, ?_⟩
  · rw [check_tsa_item_200]
    unfold processReply
    rw [parsedResult_parsed _ _ _ _ hc hp]
    unfold buildResult TSACheckResult.validate carryOnArg checkedArg descriptionArg
      restrictionsArg notesArg dictGetD
    rw [hb1, hb2, hb3, hb4, hb5]
  · intro hnone
    rw [hnone] at hb1
    simp [validateBoolField] at hb1
    simp_all
  · intro b hsome
    rw [hsome] at hb1
    simp [validateBoolField] at hb1
    simp_all
  · intro hnone
    rw [hnone] at hb2
    simp [validateBoolField] at hb2
    simp_all
  · intro b hsome
    rw [hsome] at hb2
    simp [validateBoolField] at hb2
    simp_all
  · intro hnone
    rw [hnone] at hb3
    simp [validateStrField] at hb3
    simp_all
  · intro s hsome
    rw [hsome] at hb3
    simp [validateStrField] at hb3
    simp_all
  · intro hnone
    rw [hnone] at hb4
    simp [validateOptStrField] at hb4
    simp_all
  · intro s hsome
    rw [hsome] at hb4
    simp [validateOptStrField] at hb4
    simp_all
  · intro hnone
    rw [hnone] at hb5
    simp [validateOptStrField] at hb5
    simp_all
  · intro s hsome
    rw [hsome] at hb5
    simp [validateOptStrField] at hb5
    simp_all
  · intro k v hk
    simp only [List.mem_cons, List.mem_singleton, not_or] at hk
    obtain ⟨hk1, hk2, hk3, hk4, hk5, -⟩ := hk
    unfold buildResult carryOnArg checkedArg descriptionArg restrictionsArg notesArg dictGetD
    simp only [objGet_append_single]
    rw [if_neg hk1, if_neg hk2, if_neg hk3, if_neg hk4, if_neg hk5]

/-- A `json.loads` oracle for a reply whose JSON object sits inside prose. -/
def wProseWrapped : String → Option (List (String × JValue)) :=
  fun s =>
    if s = "\x7b\"carry_on_allowed\": true, \"restrictions\": \"Limit 3.4oz\"\x7d" then
      some [("carry_on_allowed", JValue.jbool true),
            ("restrictions", JValue.jstr "Limit 3.4oz")]
    else none

theorem claim4_witness :
    ∃ r, check_tsa_item wProseWrapped "shampoo" (.response 200 ""
        "Answer follows. \x7b\"carry_on_allowed\": true, \"restrictions\": \"Limit 3.4oz\"\x7d Thanks!") =
          .ok r
      ∧ r.carry_on_allowed = true ∧ r.description = "No description available" := by
  obtain ⟨r, hr, -, hcb, -, -, hdesc, -⟩ :=
    claim4_amended_fields_from_parsed_object wProseWrapped "shampoo" ""
      "Answer follows. \x7b\"carry_on_allowed\": true, \"restrictions\": \"Limit 3.4oz\"\x7d Thanks!"
      "\x7b\"carry_on_allowed\": true, \"restrictions\": \"Limit 3.4oz\"\x7d"
      [("carry_on_allowed", JValue.jbool true), ("restrictions", JValue.jstr "Limit 3.4oz")]
      (by rfl) (by rfl) (by rfl)
  exact ⟨r, hr, hcb true (by rfl), hdesc (by rfl)⟩

/-- C9: when parsing of the brace-delimited candidate succeeds, the per-key
defaults of lines 140-144 apply only to keys absent from the parsed object:
a key present with JSON `null` does not receive its default — `description:
null` makes the constructor argument `null` rather than the
"No description available" string, and `restrictions`/`additional_notes`
present as `null` yield exactly the same constructor argument (Python
`None`) as when absent. -/
theorem claim9_null_keys_not_defaulted (fields fields2 : List (String × JValue)) :
    (objGet fields "description" = some .jnull →
      descriptionArg fields = .jnull ∧
        descriptionArg fields ≠ .jstr "No description available")
    ∧ (objGet fields "description" = none →
        descriptionArg fields = .jstr "No description available")
    ∧ (objGet fields "restrictions" = some .jnull →
        objGet fields2 "restrictions" = none →
        restrictionsArg fields = restrictionsArg fields2)
    ∧ (objGet fields "additional_notes" = some .jnull →
        objGet fields2 "additional_notes" = none →
        notesArg fields = notesArg fields2)
    ∧ (objGet fields "carry_on_allowed" = some .jnull →
        carryOnArg fields = .jnull ∧ carryOnArg fields ≠ .jbool false)
    ∧ (objGet fields "checked_baggage_allowed" = some .jnull →
        checkedArg fields = .jnull ∧ checkedArg fields ≠ .jbool false) := by
  refine ⟨?_, ?_, ?_, ?_, ?_, ?_⟩
  · intro h
    unfold descriptionArg dictGetD
    rw [h]
    exact ⟨rfl, by simp⟩
  · intro h
    unfold descriptionArg dictGetD
    rw [h]
    rfl
  · intro h h2
    unfold restrictionsArg dictGetD
    rw [h, h2]
    rfl
  · intro h h2
    unfold notesArg dictGetD
    rw [h, h2]
    rfl
  · intro h
    unfold carryOnArg dictGetD
    rw [h]
    exact ⟨rfl, by simp⟩
  · intro h
    unfold checkedArg dictGetD
    rw [h]
    exact ⟨rfl, by simp⟩

theorem claim9_witness :
    descriptionArg [("description", JValue.jnull)] = JValue.jnull
    ∧ restrictionsArg [("restrictions", JValue.jnull)] = restrictionsArg [] := by
  refine ⟨((claim9_null_keys_not_defaulted [("description", JValue.jnull)] []).1
    (by rfl)).1, ?_⟩
  exact (claim9_null_keys_not_defaulted [("restrictions", JValue.jnull)] []).2.2.1
    (by rfl) (by rfl)

/-- C5 counterexample: a request body with no `item` field at all is rejected
by FastAPI's request-body validation with HTTP 422 (RequestValidationError),
before the handler's 400 check can run, so "missing item → HTTP 400" fails. -/
theorem claim5_counterexample_missing_item_422 :
    errStatus (postCheckItem wNoParse ⟨none, none⟩ (.response 200 "" "")) = some 422
    ∧ (422 : Nat) ≠ 400 :=
  ⟨by rfl, by decide⟩

/-- C5 (amended): `POST /check-item` fails with HTTP 422 when `item` is
missing from the request body (framework validation of the required field)
and with HTTP 400 when `item` is present but empty after trimming
leading/trailing whitespace; in both cases the response is a fixed error
independent of the upstream outcome, i.e. the outbound completion API is
never invoked. -/
theorem claim5_amended_validation_rejections
    (json_loads : String → Option (List (String × JValue)))
    (b : RawBody) (outcome outcome2 : UpstreamOutcome) :
    (b.item = none →
      postCheckItem json_loads b outcome = .error ⟨422, "Field required: item"⟩
        ∧ postCheckItem json_loads b outcome = postCheckItem json_loads b outcome2)
    ∧ (∀ s, b.item = some s → pyStrip s = "" →
      postCheckItem json_loads b outcome = .error ⟨400, "Item name is required"⟩
        ∧ postCheckItem json_loads b outcome = postCheckItem json_loads b outcome2) := by
  have key : ∀ o : UpstreamOutcome, b.item = none →
      postCheckItem json_loads b o = .error ⟨422, "Field required: item"⟩ := by
    intro o h
    simp [postCheckItem, validateBody, h]
  have key2 : ∀ (o : UpstreamOutcome) (s : String), b.item = some s → pyStrip s = "" →
      postCheckItem json_loads b o = .error ⟨400, "Item name is required"⟩ := by
    intro o s hs hstrip
    simp [postCheckItem, validateBody, hs, check_item, hstrip]
  exact ⟨fun h => ⟨key outcome h, (key outcome h).trans (key outcome2 h).symm⟩,
    fun s hs hstrip => ⟨key2 outcome s hs hstrip,
      (key2 outcome s hs hstrip).trans (key2 outcome2 s hs hstrip).symm⟩⟩

theorem claim5_witness :
    postCheckItem wNoParse ⟨some "   ", none⟩ (.response 200 "" "x") =
        .error ⟨400, "Item name is required"⟩
    ∧ postCheckItem wNoParse ⟨none, none⟩ (.failure (.timeoutExc "t")) =
        .error ⟨422, "Field required: item"⟩ :=
  ⟨((claim5_amended_validation_rejections wNoParse ⟨some "   ", none⟩
      (.response 200 "" "x") (.failure (.timeoutExc "t"))).2 "   " (by rfl) (by rfl)).1,
   ((claim5_amended_validation_rejections wNoParse ⟨none, none⟩
      (.failure (.timeoutExc "t")) (.response 200 "" "x")).1 (by rfl)).1⟩

/-- C6 counterexample: upstream status 201 is a success status (2xx), yet
the code tests `response.status_code != 200` and errors with HTTP 500
instead of proceeding to extract and parse the reply. -/
theorem claim6_counterexample_status_201 :
    isSuccessStatus 201 = true
    ∧ errStatus (check_tsa_item wNoParse "pillow" (.response 201 "created" "ok")) =
        some 500 :=
  ⟨by rfl, by rfl⟩

/-- C6 (amended): the classify operation fails with HTTP 500 — with a
message that includes the upstream status code and response body (wrapped
in an "Unexpected error: 500: OpenRouter API error: ..." prefix, because the
`HTTPException` raised at lines 101-104 is itself re-caught by the bare
`except Exception` clause at line 151) — exactly when the upstream HTTP
status differs from 200; only for status exactly 200 does it proceed to
extract and parse the reply.  Other 2xx statuses are treated as errors
(see the counterexample). -/
theorem claim6_amended_error_iff_not_200
    (json_loads : String → Option (List (String × JValue)))
    (item : String) (status : Nat) (text llm_response : String) :
    (status ≠ 200 →
      check_tsa_item json_loads item (.response status text llm_response) =
        .error ⟨500, "Unexpected error: " ++ httpExceptionStr
          ⟨500, "OpenRouter API error: " ++ toString status ++ " - " ++ text⟩⟩)
    ∧ (status = 200 →
      check_tsa_item json_loads item (.response status text llm_response) =
        processReply json_loads item llm_response) := by
  constructor
  · intro h
    simp [check_tsa_item, h]
  · intro h
    subst h
    exact check_tsa_item_200 _ _ _ _

theorem claim6_witness :
    check_tsa_item wNoParse "drone" (.response 404 "not found" "x") =
      .error ⟨500, "Unexpected error: 500: OpenRouter API error: 404 - not found"⟩ := by
  have h := (claim6_amended_error_iff_not_200 wNoParse "drone" 404 "not found" "x").1
    (by decide)
  rw [h]
  rfl

theorem dispatchFailure_detail_ne (ex : HttpxFailure) : (dispatchFailure ex).detail ≠ "" := by
  cases ex with
  | timeoutExc m =>
    simp only [dispatchFailure, HttpxFailure.isTimeoutException, if_true]
    decide
  | connectError m =>
    simp only [dispatchFailure, HttpxFailure.isTimeoutException,
      HttpxFailure.isRequestError, HttpxFailure.message, Bool.false_eq_true,
      if_false, if_true]
    exact str_append_ne_empty _ _ (by decide)

theorem processReply_error_detail_ne
    (json_loads : String → Option (List (String × JValue)))
    (item llm_response : String) (e : HTTPErr)
    (h : processReply json_loads item llm_response = .error e) : e.detail ≠ "" := by
  unfold processReply at h
  split at h
  · simp at h
  · injection h with h
    rw [← h]
    exact str_append_ne_empty _ _ (by decide)

theorem check_tsa_item_error_detail_ne
    (json_loads : String → Option (List (String × JValue))) (item : String)
    (outcome : UpstreamOutcome) (e : HTTPErr)
    (h : check_tsa_item json_loads item outcome = .error e) : e.detail ≠ "" := by
  cases outcome with
  | failure ex =>
    have hd : (Except.error (dispatchFailure ex) : Except HTTPErr TSACheckResult) =
        .error e := h
    injection hd with hd
    rw [← hd]
    exact dispatchFailure_detail_ne ex
  | response status text content =>
    by_cases hs : status = 200
    · subst hs
      rw [check_tsa_item_200] at h
      exact processReply_error_detail_ne _ _ _ _ h
    · have h' : check_tsa_item json_loads item (.response status text content) =
          .error ⟨500, "Unexpected error: " ++ httpExceptionStr
            ⟨500, "OpenRouter API error: " ++ toString status ++ " - " ++ text⟩⟩ := by
        simp [check_tsa_item, hs]
      rw [h'] at h
      injection h with h
      rw [← h]
      exact str_append_ne_empty _ _ (by decide)

/-- C7: every error already classified with an HTTP status — the 400
invalid-input error and the errors raised by the classification client's
`except` clauses (504 timeout, 500 network, 500 unexpected) — propagates to
the HTTP response unchanged, with the same status code and the same message
(`except HTTPException: raise` at lines 201-203); any other exception is
wrapped by lines 204-208 as HTTP 500 carrying the original message; and no
error produced by the pipeline is a bare error with an empty message. -/
theorem claim7_error_propagation :
    (∀ e : HTTPErr, check_item_handler (.httpExc e) = e)
    ∧ (∀ msg : String, check_item_handler (.otherExc msg) =
        ⟨500, "Failed to check item: " ++ msg⟩)
    ∧ (∀ (json_loads : String → Option (List (String × JValue)))
        (request : ItemCheckRequest) (outcome : UpstreamOutcome) (e : HTTPErr),
        ¬(request.item = "" ∨ pyStrip request.item = "") →
        check_tsa_item json_loads (pyStrip request.item) outcome = .error e →
        check_item json_loads request outcome = .error e)
    ∧ (∀ (json_loads : String → Option (List (String × JValue)))
        (request : ItemCheckRequest) (outcome : UpstreamOutcome) (e : HTTPErr),
        check_item json_loads request outcome = .error e → e.detail ≠ "") := by
  refine ⟨fun e => rfl, fun msg => rfl, ?_, ?_⟩
  · intro json_loads request outcome e hne h
    unfold check_item
    rw [if_neg hne]
    exact h
  · intro json_loads request outcome e h
    unfold check_item at h
    split at h
    · injection h with h
      rw [← h]
      decide
    · exact check_tsa_item_error_detail_ne _ _ _ _ h

theorem claim7_witness :
    check_item_handler (.httpExc ⟨504, "Request to LLM service timed out"⟩) =
        ⟨504, "Request to LLM service timed out"⟩
    ∧ check_item_handler (.otherExc "boom") = ⟨500, "Failed to check item: boom"⟩
    ∧ check_item wNoParse ⟨"ring", none⟩ (.failure (.timeoutExc "t")) =
        .error ⟨504, "Request to LLM service timed out"⟩
    ∧ (⟨504, "Request to LLM service timed out"⟩ : HTTPErr).detail ≠ "" :=
  ⟨claim7_error_propagation.1 ⟨504, "Request to LLM service timed out"⟩,
   claim7_error_propagation.2.1 "boom",
   claim7_error_propagation.2.2.1 wNoParse ⟨"ring", none⟩ (.failure (.timeoutExc "t"))
     ⟨504, "Request to LLM service timed out"⟩ (by decide) (by rfl),
   claim7_error_propagation.2.2.2 wNoParse ⟨"ring", none⟩ (.failure (.timeoutExc "t"))
     ⟨504, "Request to LLM service timed out"⟩ (by rfl)⟩

/-- C8: when the outbound call raises `httpx.TimeoutException` the endpoint
returns HTTP 504; when it raises any other transport-level
`httpx.RequestError` (DNS, connection refused, reset, ...) it returns
HTTP 500 with a "Network error: ..." message.  Because the `except`
clauses of lines 147-152 are tried in source order, a timeout — although
`httpx.TimeoutException` is itself a subclass of `httpx.RequestError`
(`isRequestError` holds for it) — is always classified as 504, never as
the transport-error 500. -/
theorem claim8_timeout_before_transport
    (json_loads : String → Option (List (String × JValue)))
    (item : String) (ex : HttpxFailure) :
    (ex.isTimeoutException = true →
      check_tsa_item json_loads item (.failure ex) =
          .error ⟨504, "Request to LLM service timed out"⟩
        ∧ ex.isRequestError = true)
    ∧ (ex.isTimeoutException = false → ex.isRequestError = true →
      check_tsa_item json_loads item (.failure ex) =
        .error ⟨500, "Network error: " ++ ex.message⟩) := by
  constructor
  · intro h
    have hd : dispatchFailure ex = ⟨504, "Request to LLM service timed out"⟩ := by
      simp [dispatchFailure, h]
    exact ⟨by simp [check_tsa_item, hd], by cases ex <;> rfl⟩
  · intro h1 h2
    have hd : dispatchFailure ex = ⟨500, "Network error: " ++ ex.message⟩ := by
      simp [dispatchFailure, h1, h2]
    simp [check_tsa_item, hd]

theorem claim8_witness :
    check_tsa_item wNoParse "skates" (.failure (.timeoutExc "timed out")) =
        .error ⟨504, "Request to LLM service timed out"⟩
    ∧ HttpxFailure.isRequestError (.timeoutExc "timed out") = true
    ∧ check_tsa_item wNoParse "matches" (.failure (.connectError "dns fail")) =
        .error ⟨500, "Network error: dns fail"⟩ :=
  ⟨((claim8_timeout_before_transport wNoParse "skates" (.timeoutExc "timed out")).1
      (by rfl)).1,
   ((claim8_timeout_before_transport wNoParse "skates" (.timeoutExc "timed out")).1
      (by rfl)).2,
   (claim8_timeout_before_transport wNoParse "matches" (.connectError "dns fail")).2
     (by rfl) (by rfl)⟩
